import Mathlib

/-!
Shallow embedding of `src/engine/engine.cpp` (Lumix engine façade):
universe/scene lifecycle, the two-mode frame-update loop and its fps
sampling, and the versioned binary serialization codec.

Pointers are modelled as numeric identities (`Nat` ids); pointer equality
is id equality.  C++ `float` arithmetic is modelled with exact rationals
`ℚ`.  Calls the engine makes into its collaborators (scene updates,
plugin-manager update, input-system update, scene destruction, timer
ticks, the async file-system drain) are recorded as an event trace, which
is the observable the spec's order-of-calls properties talk about.
-/

namespace Lumix

/-- A registered plugin (`IPlugin*`): its identity and what its
`createScene` hook returns for a fresh universe (`none` models a null
scene pointer). -/
structure IPlugin where
  id : Nat
  sceneResult : Option Nat
deriving DecidableEq

/-- An active scene (`IScene*`): the back-reference to the plugin that
created it (`getPlugin()`), and its own identity. -/
structure IScene where
  pluginId : Nat
  sceneId : Nat
deriving DecidableEq

/-- One call the engine makes into a collaborator during
`update`/`destroyUniverse`, in program order. -/
inductive Event where
  | sceneUpdate (pluginId sceneId : Nat) (dt : ℚ)
  | pluginManagerUpdate (dt : ℚ)
  | inputSystemUpdate (dt : ℚ)
  | fsAsyncUpdate
  | fpsTimerTick
  | fpsResample (fps : ℚ)
  | destroySceneCall (pluginId sceneId : Nat)
  | hierarchyDestroyed
  | universeDestroyed
deriving DecidableEq

/-- The mutable state of `EngineImpl` relevant to the claims:
the plugin manager's ordered plugin list, the cached renderer
(`m_renderer`, by id), the scene registry `m_scenes`, `m_universe`,
`m_hierarchy`, `m_fps_frame`, `m_fps`, `m_last_time_delta`. -/
structure EngineState where
  plugins : List IPlugin
  m_renderer : Nat
  m_scenes : List IScene
  m_universe : Option Nat
  m_hierarchy : Option Nat
  m_fps_frame : Nat
  m_fps : ℚ
  m_last_time_delta : ℚ
deriving DecidableEq

/-- The scenes appended by `createUniverse`'s plugin loop: each plugin in
registration order whose `createScene` returns non-null contributes one
scene whose plugin back-reference is that plugin. -/
def createdScenes (plugins : List IPlugin) : List IScene :=
  plugins.filterMap fun p => p.sceneResult.map fun sid => ⟨p.id, sid⟩

/-- `EngineImpl::createUniverse`: allocate the universe and hierarchy
(fresh ids supplied by the caller, standing for the allocator), then push
a scene for every plugin whose hook returns non-null, in registration
order; returns the new universe. -/
def createUniverse (s : EngineState) (univId hierId : Nat) :
    EngineState × Nat :=
  ({ s with
      m_universe := some univId
      m_hierarchy := some hierId
      m_scenes := s.m_scenes ++ createdScenes s.plugins }, univId)

/-- `EngineImpl::destroyUniverse`: guarded by `if (m_universe)` (the
`ASSERT` is compiled out); destroys scenes back-to-front, each through
`m_scenes[i]->getPlugin().destroyScene(m_scenes[i])`, clears the
registry, destroys the hierarchy, deletes the universe. -/
def destroyUniverse (s : EngineState) : EngineState × List Event :=
  match s.m_universe with
  | none => (s, [])
  | some _ =>
      ({ s with m_scenes := [], m_hierarchy := none, m_universe := none },
       (s.m_scenes.reverse.map fun sc =>
          Event.destroySceneCall sc.pluginId sc.sceneId)
         ++ [Event.hierarchyDestroyed, Event.universeDestroyed])

/-- `EngineImpl::updateGame`: every scene in registration order, then the
plugin manager, then the input system. -/
def updateGame (s : EngineState) (dt : ℚ) : List Event :=
  (s.m_scenes.map fun sc => Event.sceneUpdate sc.pluginId sc.sceneId dt)
    ++ [Event.pluginManagerUpdate dt, Event.inputSystemUpdate dt]

/-- `EngineImpl::update`.  `ft` and `fs` are the values the next
`m_timer->tick()` and `m_fps_timer->tick()` calls would return (the
timers are external monotonic sources).  Forced mode
(`forced_time_delta >= 0`): `dt = forced * mult`, fps set directly from
`dt`, sample counter reset, fps timer ticked.  Live mode: the counter
increments and on reaching 30 the fps is resampled as `30 / tick` and
the counter resets; `dt = tick * mult`.  Then `dt` is cached and
dispatched: game running → `updateGame`; else only scenes whose plugin
is (pointer-)equal to `m_renderer`.  Finally the async file-system
transactions are drained. -/
def update (s : EngineState) (is_game_running : Bool)
    (time_delta_multiplier forced_time_delta ft fs : ℚ) :
    EngineState × List Event :=
  let timing : ℚ × Nat × ℚ × List Event :=
    if 0 ≤ forced_time_delta then
      (forced_time_delta * time_delta_multiplier, 0,
        if forced_time_delta * time_delta_multiplier = 0 then 0
        else 1 / (forced_time_delta * time_delta_multiplier),
        [Event.fpsTimerTick])
    else if s.m_fps_frame + 1 = 30 then
      (ft * time_delta_multiplier, 0, 30 / fs,
        [Event.fpsTimerTick, Event.fpsResample (30 / fs)])
    else
      (ft * time_delta_multiplier, s.m_fps_frame + 1, s.m_fps, [])
  let dt := timing.1
  let s1 : EngineState :=
    { s with m_fps_frame := timing.2.1, m_fps := timing.2.2.1,
             m_last_time_delta := dt }
  let dispatch : List Event :=
    if is_game_running then updateGame s1 dt
    else
      s1.m_scenes.filterMap fun sc =>
        if sc.pluginId = s1.m_renderer then
          some (Event.sceneUpdate sc.pluginId sc.sceneId dt)
        else none
  (s1, timing.2.2.2 ++ dispatch ++ [Event.fsAsyncUpdate])

/-- Events that are dispatches of `dt` to a collaborator (scene, plugin
manager, input system), as opposed to timing bookkeeping. -/
def Event.isDispatch : Event → Bool
  | .sceneUpdate _ _ _ => true
  | .pluginManagerUpdate _ => true
  | .inputSystemUpdate _ => true
  | _ => false

/-- Marks the live-mode fps resampling write `m_fps = 30 / tick`. -/
def Event.isResample : Event → Bool
  | .fpsResample _ => true
  | _ => false

/-- Number of live-mode fps resamples in a trace. -/
def resampleCount (evs : List Event) : Nat :=
  evs.countP Event.isResample

/-- A run of consecutive live-mode (`forced_time_delta = -1`) calls to
`update`, one per entry of `ticks` (frame-timer tick, fps-timer tick),
concatenating the traces. -/
def liveRun (running : Bool) (m : ℚ) :
    EngineState → List (ℚ × ℚ) → EngineState × List Event
  | s, [] => (s, [])
  | s, t :: ts =>
      let r1 := update s running m (-1) t.1 t.2
      let r2 := liveRun running m r1.1 ts
      (r2.1, r1.2 ++ r2.2)

/-! ## Serialization codec

Streams are byte lists (each entry `< 256` in intended use); `OutputBlob`
is the written byte list (`write` appends, `getSize` is the length),
`InputBlob` is a byte list with a read cursor. -/

/-- `SERIALIZED_ENGINE_MAGIC == 0x5f4c454e` (`_LEN`). -/
def SERIALIZED_ENGINE_MAGIC : Nat := 0x5f4c454e

/-- `SerializedEngineVersion::BASE` (underlying `int32_t` value). -/
def SerializedEngineVersion.BASE : Int := 0

/-- `SerializedEngineVersion::LATEST`, the last enumerator. -/
def SerializedEngineVersion.LATEST : Int := 1

/-- Byte `i` of a stream (x86 little-endian memory image). -/
def byteAt (bytes : List Nat) (i : Nat) : Nat :=
  bytes.getD i 0

/-- Little-endian 4-byte image of a `uint32_t`. -/
def u32le (x : Nat) : List Nat :=
  [x % 256, x / 256 % 256, x / 65536 % 256, x / 16777216 % 256]

/-- Little-endian 4-byte image of an `int32_t` (two's complement). -/
def i32le (x : Int) : List Nat :=
  u32le (x % 4294967296).toNat

/-- Read a `uint32_t` stored little-endian at `pos`. -/
def readU32le (bytes : List Nat) (pos : Nat) : Nat :=
  byteAt bytes pos + 256 * byteAt bytes (pos + 1)
    + 65536 * byteAt bytes (pos + 2) + 16777216 * byteAt bytes (pos + 3)

/-- Read an `int32_t` stored little-endian at `pos` (two's complement). -/
def readI32le (bytes : List Nat) (pos : Nat) : Int :=
  let n := readU32le bytes pos
  if n < 2147483648 then (n : Int) else (n : Int) - 4294967296

/-- Memory image of `SerializedEngineHeader` under `#pragma pack(1)`:
`m_magic`, `m_version`, `m_reserved`, each four bytes, in declaration
order. -/
def headerBytes (magic : Nat) (version : Int) (reserved : Nat) :
    List Nat :=
  u32le magic ++ i32le version ++ u32le reserved

/-- `sizeof(SerializedEngineHeader)` under `#pragma pack(1)`. -/
def serializedEngineHeaderSize : Nat := 12

/-- `InputBlob`: the stream and the read cursor; `read` advances the
cursor by the size of the value read. -/
structure InputBlob where
  bytes : List Nat
  pos : Nat
deriving DecidableEq

/-- Modelled from the spec: CRC32 (`crc32` from `core/crc32.h`, not under
`src/`) — the standard 32-bit cyclic redundancy check used "purely for
stream-tamper detection"; reflected polynomial `0xEDB88320`, initial and
final value `0xFFFFFFFF`.  One bit step. -/
def crc32step (c : Nat) : Nat :=
  if c % 2 = 1 then (c / 2) ^^^ 0xEDB88320 else c / 2

/-- CRC32: absorb one byte (eight bit steps). -/
def crc32byte (c b : Nat) : Nat :=
  crc32step^[8] (c ^^^ b % 256)

/-- CRC32 of a byte list. -/
def crc32 (bytes : List Nat) : Nat :=
  (bytes.foldl crc32byte 0xFFFFFFFF) ^^^ 0xFFFFFFFF

/-- Modelled from the spec: the serialized payloads of the collaborators
`serialize()` writes through — the global path-interning table
(`g_path_manager`), the Universe, the Hierarchy, the Renderer, the
Plugin Manager, and each scene's `serialize` — none of which is code
under `src/`.  Each is an opaque byte string (per-scene for scenes). -/
structure SubPayloads where
  pathTable : List Nat
  universeBytes : List Nat
  hierarchyBytes : List Nat
  rendererBytes : List Nat
  pluginManagerBytes : List Nat
  sceneBytes : IScene → List Nat

/-- `EngineImpl::serialize`: write the header (magic, `LATEST`,
reserved `= 0`), the path table, record `pos = getSize()`, then the
Universe, Hierarchy, Renderer, Plugin Manager and every scene in
registration order; return the CRC32 of the bytes from `pos` to the
end.  Returns (stream, returned crc). -/
def serialize (s : EngineState) (sub : SubPayloads) (blob : List Nat) :
    List Nat × Nat :=
  let b1 := blob ++ headerBytes SERIALIZED_ENGINE_MAGIC
      SerializedEngineVersion.LATEST 0
  let b2 := b1 ++ sub.pathTable
  let pos := b2.length
  let b3 := b2 ++ sub.universeBytes
  let b4 := b3 ++ sub.hierarchyBytes
  let b5 := b4 ++ sub.rendererBytes
  let b6 := b5 ++ sub.pluginManagerBytes
  let b7 := b6 ++ (s.m_scenes.map sub.sceneBytes).flatten
  (b7, crc32 (b7.drop pos))

/-- `EngineImpl::deserialize`: read the header (12 bytes); fail on a
magic mismatch, then on `m_version > LATEST`; otherwise run the body —
path table, Universe, Hierarchy, Renderer, Plugin Manager and scene
reads, which are external collaborators modelled as an arbitrary
state/stream transformation `applyBody` — and return success.  Returns
(result, engine state, stream cursor). -/
def deserialize
    (applyBody : EngineState → InputBlob → EngineState × InputBlob)
    (s : EngineState) (blob : InputBlob) :
    Bool × EngineState × InputBlob :=
  let m_magic := readU32le blob.bytes blob.pos
  let m_version := readI32le blob.bytes (blob.pos + 4)
  let blob1 : InputBlob := ⟨blob.bytes, blob.pos + serializedEngineHeaderSize⟩
  if m_magic ≠ SERIALIZED_ENGINE_MAGIC then (false, s, blob1)
  else if m_version > SerializedEngineVersion.LATEST then (false, s, blob1)
  else
    let r := applyBody s blob1
    (true, r.1, r.2)

/-! ## Concrete states used to instantiate the theorems -/

/-- An engine in the `NoUniverse` state with three registered plugins,
the second of which returns a null scene. -/
def nullState : EngineState :=
  { plugins := [⟨1, some 10⟩, ⟨2, none⟩, ⟨3, some 30⟩], m_renderer := 1,
    m_scenes := [], m_universe := none, m_hierarchy := none,
    m_fps_frame := 0, m_fps := 0, m_last_time_delta := 0 }

/-- An engine in the `UniverseActive` state with two scenes, the first
owned by the renderer plugin. -/
def twoSceneState : EngineState :=
  { plugins := [⟨1, some 10⟩, ⟨2, some 20⟩], m_renderer := 1,
    m_scenes := [⟨1, 10⟩, ⟨2, 20⟩], m_universe := some 5,
    m_hierarchy := some 6,
    m_fps_frame := 0, m_fps := 0, m_last_time_delta := 0 }

/-- A deserialize body that reads nothing and changes nothing (stands
for concrete collaborator `deserialize` implementations). -/
def idBody : EngineState → InputBlob → EngineState × InputBlob :=
  fun s b => (s, b)

/-! ## Universe/scene lifecycle (C1, C2, C10) -/

/-- C1: for every set of registered plugins, `createUniverse()` followed
by `destroyUniverse()` on an engine in the `NoUniverse` state (empty
scene registry, null universe, null hierarchy) restores the
empty-registry, null-universe, null-hierarchy state. -/
theorem createUniverse_then_destroyUniverse_restores
    (s : EngineState) (univId hierId : Nat)
    (_hu : s.m_universe = none) (_hh : s.m_hierarchy = none)
    (_hs : s.m_scenes = []) :
    (destroyUniverse (createUniverse s univId hierId).1).1.m_scenes = []
    ∧ (destroyUniverse (createUniverse s univId hierId).1).1.m_universe
        = none
    ∧ (destroyUniverse (createUniverse s univId hierId).1).1.m_hierarchy
        = none := by
  simp [createUniverse, destroyUniverse]

/-- Witness for C1 at a concrete three-plugin engine. -/
theorem createUniverse_then_destroyUniverse_restores_witness :
    nullState.m_universe = none ∧ nullState.m_hierarchy = none
    ∧ nullState.m_scenes = []
    ∧ ((destroyUniverse (createUniverse nullState 7 8).1).1.m_scenes = []
       ∧ (destroyUniverse (createUniverse nullState 7 8).1).1.m_universe
           = none
       ∧ (destroyUniverse (createUniverse nullState 7 8).1).1.m_hierarchy
           = none) :=
  ⟨rfl, rfl, rfl,
    createUniverse_then_destroyUniverse_restores nullState 7 8 rfl rfl rfl⟩

/-- C2: with an active universe, `destroyUniverse()` emits the
destroy-scene calls in exact reverse registration order (then destroys
the hierarchy and the universe), and every destroy-scene call goes
through the plugin recorded as that scene's creator — a plugin never
destroys a scene it did not create. -/
theorem destroyUniverse_reverse_order_owner_only
    (s : EngineState) (u : Nat) (h : s.m_universe = some u) :
    (destroyUniverse s).2 =
      (s.m_scenes.reverse.map fun sc =>
        Event.destroySceneCall sc.pluginId sc.sceneId)
        ++ [Event.hierarchyDestroyed, Event.universeDestroyed]
    ∧ ∀ p sid, Event.destroySceneCall p sid ∈ (destroyUniverse s).2 →
        ∃ sc ∈ s.m_scenes, sc.pluginId = p ∧ sc.sceneId = sid := by
  constructor
  · simp [destroyUniverse, h]
  · intro p sid hmem
    simp only [destroyUniverse, h, List.mem_append, List.mem_map,
      List.mem_reverse, List.mem_cons, List.not_mem_nil] at hmem
    rcases hmem with ⟨sc, hsc, heq⟩ | hbad
    · cases heq
      exact ⟨sc, hsc, rfl, rfl⟩
    · rcases hbad with h1 | h1 | h1 <;> cases h1

/-- Witness for C2 at a concrete two-scene engine. -/
theorem destroyUniverse_reverse_order_owner_only_witness :
    twoSceneState.m_universe = some 5
    ∧ (destroyUniverse twoSceneState).2 =
        [Event.destroySceneCall 2 20, Event.destroySceneCall 1 10,
         Event.hierarchyDestroyed, Event.universeDestroyed] := by
  refine ⟨rfl, ?_⟩
  have h := (destroyUniverse_reverse_order_owner_only twoSceneState 5 rfl).1
  simpa using h

/-- C10: with assertions compiled out, `destroyUniverse()` in the
`NoUniverse` state (null `m_universe`) is a no-op: the `if (m_universe)`
guard prevents any scene destruction, hierarchy destruction or registry
mutation, and the whole engine state is unchanged. -/
theorem destroyUniverse_no_universe_noop (s : EngineState)
    (h : s.m_universe = none) : destroyUniverse s = (s, []) := by
  simp [destroyUniverse, h]

/-- Witness for C10 at a concrete `NoUniverse` engine. -/
theorem destroyUniverse_no_universe_noop_witness :
    nullState.m_universe = none ∧ destroyUniverse nullState
      = (nullState, []) :=
  ⟨rfl, destroyUniverse_no_universe_noop nullState rfl⟩

/-! ## Frame update / timing (C3, C6, C7) -/

/-- A loop that pushes `g sc` for the scenes satisfying `P` is the
filtered scenes mapped through `g`. -/
theorem filterMap_ite_some (l : List IScene) (P : IScene → Prop)
    [DecidablePred P] (g : IScene → Event) :
    (l.filterMap fun sc => if P sc then some (g sc) else none)
      = (l.filter fun sc => decide (P sc)).map g := by
  induction l with
  | nil => rfl
  | cons a t ih => by_cases h : P a <;> simp [h, ih]

/-- Scene-update events are dispatch events. -/
theorem filter_isDispatch_sceneUpdates (l : List IScene) (dt : ℚ) :
    ((l.map fun sc => Event.sceneUpdate sc.pluginId sc.sceneId dt).filter
        Event.isDispatch)
      = l.map fun sc => Event.sceneUpdate sc.pluginId sc.sceneId dt := by
  induction l with
  | nil => rfl
  | cons a t ih => simp [Event.isDispatch, ih]

/-- C3: in live mode (`forcedDelta = -1`), with `dt = tick * multiplier`:
when the game is running, `dt` is dispatched to every scene in
registration order, then the plugin manager, then the input system, in
that order; when not running, `dt` goes only to the scene(s) whose
owning plugin is (pointer-)identical to the cached renderer — no other
scene, no plugin manager, no input system. -/
theorem update_dispatch_order (s : EngineState) (m ft fs : ℚ) :
    ((update s true m (-1) ft fs).2.filter Event.isDispatch =
      (s.m_scenes.map fun sc =>
        Event.sceneUpdate sc.pluginId sc.sceneId (ft * m))
        ++ [Event.pluginManagerUpdate (ft * m),
            Event.inputSystemUpdate (ft * m)])
    ∧ ((update s false m (-1) ft fs).2.filter Event.isDispatch =
      (s.m_scenes.filter fun sc =>
          decide (sc.pluginId = s.m_renderer)).map
        fun sc => Event.sceneUpdate sc.pluginId sc.sceneId (ft * m)) := by
  have hneg : ¬ (0:ℚ) ≤ -1 := by norm_num
  constructor <;>
    by_cases h30 : s.m_fps_frame + 1 = 30 <;>
      simp [update, updateGame, hneg, h30, Event.isDispatch,
        List.filter_append, filter_isDispatch_sceneUpdates,
        filterMap_ite_some]

/-- C6: forced mode (`forcedDelta ≥ 0`): the cached last-frame delta
becomes `forcedDelta * multiplier`; the cached fps becomes `0` when that
product is `0` and its reciprocal otherwise; the fps-sample counter
resets to `0`; and the fps-sample timer is ticked. -/
theorem update_forced_mode_spec (s : EngineState) (running : Bool)
    (m d ft fs : ℚ) (h : 0 ≤ d) :
    ((update s running m d ft fs).1.m_last_time_delta = d * m)
    ∧ ((update s running m d ft fs).1.m_fps
        = if d * m = 0 then 0 else 1 / (d * m))
    ∧ ((update s running m d ft fs).1.m_fps_frame = 0)
    ∧ Event.fpsTimerTick ∈ (update s running m d ft fs).2 := by
  refine ⟨?_, ?_, ?_, ?_⟩ <;>
    simp [update, if_pos h]

/-- Witness for C6: `update(_, 2.0, 0.1)` yields `dt = 1/5` and
`fps = 5` and a zero sample counter. -/
theorem update_forced_mode_spec_witness :
    (0:ℚ) ≤ 1/10
    ∧ (update nullState true 2 (1/10) 0 0).1.m_last_time_delta = 1/5
    ∧ (update nullState true 2 (1/10) 0 0).1.m_fps = 5
    ∧ (update nullState true 2 (1/10) 0 0).1.m_fps_frame = 0 := by
  have h := update_forced_mode_spec nullState true 2 (1/10) 0 0
    (by norm_num)
  refine ⟨by norm_num, ?_, ?_, h.2.2.1⟩
  · rw [h.1]; norm_num
  · rw [h.2.1]; norm_num

/-- `resampleCount` distributes over trace concatenation. -/
theorem resampleCount_append (a b : List Event) :
    resampleCount (a ++ b) = resampleCount a + resampleCount b := by
  simp [resampleCount, List.countP_append]

/-- Scene-update events are not resamples. -/
theorem resampleCount_sceneUpdates (l : List IScene) (dt : ℚ) :
    resampleCount
      (l.map fun sc => Event.sceneUpdate sc.pluginId sc.sceneId dt)
      = 0 := by
  induction l with
  | nil => rfl
  | cons a t ih =>
      simp [resampleCount, Event.isResample, List.countP_cons]

/-- `updateGame` emits no resample. -/
theorem resampleCount_updateGame (s : EngineState) (dt : ℚ) :
    resampleCount (updateGame s dt) = 0 := by
  have h := resampleCount_sceneUpdates s.m_scenes dt
  simp [updateGame, resampleCount_append, h, resampleCount,
    Event.isResample, List.countP_cons]

/-- The paused-mode renderer-only loop emits no resample. -/
theorem resampleCount_renderer_loop (l : List IScene) (r : Nat)
    (dt : ℚ) :
    resampleCount (l.filterMap fun sc =>
      if sc.pluginId = r then
        some (Event.sceneUpdate sc.pluginId sc.sceneId dt)
      else none) = 0 := by
  rw [filterMap_ite_some l (fun sc => sc.pluginId = r)
    (fun sc => Event.sceneUpdate sc.pluginId sc.sceneId dt)]
  exact resampleCount_sceneUpdates _ _

/-- Head decomposition of `resampleCount`. -/
theorem resampleCount_cons (e : Event) (t : List Event) :
    resampleCount (e :: t)
      = resampleCount t + if Event.isResample e then 1 else 0 := by
  simp [resampleCount, List.countP_cons]

/-- The empty trace holds no resample. -/
theorem resampleCount_nil : resampleCount [] = 0 := rfl

/-- One live-mode `update` call: the sample counter increments, wrapping
to `0` on reaching 30; exactly the wrapping call resamples; a
non-wrapping call leaves the cached fps unchanged. -/
theorem update_live_step (s : EngineState) (running : Bool)
    (m ft fs : ℚ) :
    ((update s running m (-1) ft fs).1.m_fps_frame
      = if s.m_fps_frame + 1 = 30 then 0 else s.m_fps_frame + 1)
    ∧ (resampleCount (update s running m (-1) ft fs).2
      = if s.m_fps_frame + 1 = 30 then 1 else 0)
    ∧ (s.m_fps_frame + 1 ≠ 30 →
        (update s running m (-1) ft fs).1.m_fps = s.m_fps) := by
  have hneg : ¬ (0:ℚ) ≤ -1 := by norm_num
  by_cases h30 : s.m_fps_frame + 1 = 30 <;>
    cases running <;>
      simp [update, hneg, h30, resampleCount_append,
        resampleCount_updateGame, resampleCount_renderer_loop,
        resampleCount_cons, resampleCount_nil, Event.isResample]

/-- Resample count and final counter of a live run, from any in-range
counter value. -/
theorem liveRun_count_aux (running : Bool) (m : ℚ)
    (ticks : List (ℚ × ℚ)) :
    ∀ s : EngineState, s.m_fps_frame < 30 →
      resampleCount (liveRun running m s ticks).2
        = (ticks.length + s.m_fps_frame) / 30
      ∧ (liveRun running m s ticks).1.m_fps_frame
        = (ticks.length + s.m_fps_frame) % 30 := by
  induction ticks with
  | nil =>
      intro s hs
      constructor
      · simp only [liveRun, resampleCount, List.countP_nil,
          List.length_nil]
        omega
      · simp only [liveRun, List.length_nil]
        omega
  | cons t ts ih =>
      intro s hs
      have hstep := update_live_step s running m t.1 t.2
      have hlt : (update s running m (-1) t.1 t.2).1.m_fps_frame < 30 := by
        rw [hstep.1]; split <;> omega
      obtain ⟨ih1, ih2⟩ := ih (update s running m (-1) t.1 t.2).1 hlt
      constructor
      · simp only [liveRun, List.length_cons]
        rw [resampleCount_append, hstep.2.1, ih1, hstep.1]
        by_cases h30 : s.m_fps_frame + 1 = 30 <;> simp [h30] <;> omega
      · simp only [liveRun, List.length_cons]
        rw [ih2, hstep.1]
        by_cases h30 : s.m_fps_frame + 1 = 30 <;> simp [h30] <;> omega

/-- C7: starting with a zero sample counter, a run of `n` consecutive
live-mode calls resamples the fps exactly `n / 30` times — once per 30
calls — leaving the counter at `n % 30`; and any live-mode call that is
not a 30th call leaves the cached fps value unchanged. -/
theorem live_mode_resample_every_30 (s : EngineState)
    (h : s.m_fps_frame = 0) (running : Bool) (m : ℚ)
    (ticks : List (ℚ × ℚ)) :
    resampleCount (liveRun running m s ticks).2 = ticks.length / 30
    ∧ (liveRun running m s ticks).1.m_fps_frame = ticks.length % 30
    ∧ ∀ s2 : EngineState, ∀ ft fs : ℚ, s2.m_fps_frame + 1 ≠ 30 →
        (update s2 running m (-1) ft fs).1.m_fps = s2.m_fps := by
  have haux := liveRun_count_aux running m ticks s (by omega)
  rw [h, Nat.add_zero] at haux
  refine ⟨haux.1, haux.2, ?_⟩
  intro s2 ft fs h2
  exact (update_live_step s2 running m ft fs).2.2 h2

/-- Witness for C7: thirty live frames from a fresh engine resample
exactly once and return the counter to zero. -/
theorem live_mode_resample_every_30_witness :
    nullState.m_fps_frame = 0
    ∧ resampleCount
        (liveRun false 1 nullState (List.replicate 30 (1, 1))).2 = 1
    ∧ (liveRun false 1 nullState
        (List.replicate 30 (1, 1))).1.m_fps_frame = 0 := by
  have h := live_mode_resample_every_30 nullState rfl false 1
    (List.replicate 30 (1, 1))
  refine ⟨rfl, ?_, ?_⟩
  · have h1 := h.1
    simpa using h1
  · have h2 := h.2.1
    simpa using h2

/-! ## Serialization codec (C4, C5, C8, C9) -/

/-- Dropping the recorded offset (header plus path table) from the full
stream leaves exactly the five payload sections. -/
theorem drop_recorded_offset (p u h r pm j : List Nat) :
    (((((p ++ u) ++ h) ++ r) ++ pm) ++ j).drop p.length
      = u ++ h ++ r ++ pm ++ j := by
  simp [List.append_assoc, List.drop_left]

/-- C5: `serialize()` writes, after the header and the path-interning
table, exactly the Universe, the Hierarchy, the Renderer, the Plugin
Manager, then every active scene in registration order; and it returns
the CRC32 of every byte from the offset recorded right after the path
table to the end of the stream. -/
theorem serialize_order_and_crc (s : EngineState) (sub : SubPayloads)
    (blob : List Nat) :
    (serialize s sub blob).1
      = blob ++ headerBytes SERIALIZED_ENGINE_MAGIC
          SerializedEngineVersion.LATEST 0
        ++ sub.pathTable ++ sub.universeBytes ++ sub.hierarchyBytes
        ++ sub.rendererBytes ++ sub.pluginManagerBytes
        ++ (s.m_scenes.map sub.sceneBytes).flatten
    ∧ (serialize s sub blob).2
      = crc32 (sub.universeBytes ++ sub.hierarchyBytes
          ++ sub.rendererBytes ++ sub.pluginManagerBytes
          ++ (s.m_scenes.map sub.sceneBytes).flatten) := by
  refine ⟨rfl, ?_⟩
  show crc32 (List.drop _ _) = _
  rw [drop_recorded_offset]

/-- C4: `deserialize()` fails exactly when the stream's magic differs
from `SERIALIZED_ENGINE_MAGIC` or its version exceeds `LATEST` (any
older-but-known version is accepted); on a magic mismatch it fails
having consumed exactly the 12 header bytes — nothing past the header
is read. -/
theorem deserialize_failure_iff
    (applyBody : EngineState → InputBlob → EngineState × InputBlob)
    (s : EngineState) (blob : InputBlob) :
    ((deserialize applyBody s blob).1 = false ↔
      readU32le blob.bytes blob.pos ≠ SERIALIZED_ENGINE_MAGIC
      ∨ readI32le blob.bytes (blob.pos + 4)
          > SerializedEngineVersion.LATEST)
    ∧ (readU32le blob.bytes blob.pos ≠ SERIALIZED_ENGINE_MAGIC →
        (deserialize applyBody s blob).2.2.pos
            = blob.pos + serializedEngineHeaderSize
        ∧ (deserialize applyBody s blob).2.2.bytes = blob.bytes) := by
  constructor
  · simp only [deserialize]
    split_ifs with h1 h2 <;> simp [*]
  · intro h
    simp [deserialize, h]

/-- A stream of zeros: its magic (0) differs from the engine magic. -/
def badMagicBlob : InputBlob := ⟨List.replicate 16 0, 0⟩

/-- Witness for C4 on a zero-filled stream. -/
theorem deserialize_failure_iff_witness :
    readU32le badMagicBlob.bytes badMagicBlob.pos
      ≠ SERIALIZED_ENGINE_MAGIC
    ∧ (deserialize idBody nullState badMagicBlob).1 = false
    ∧ (deserialize idBody nullState badMagicBlob).2.2.pos = 12 := by
  have hmag : readU32le badMagicBlob.bytes badMagicBlob.pos
      ≠ SERIALIZED_ENGINE_MAGIC := by decide
  have h := deserialize_failure_iff idBody nullState badMagicBlob
  refine ⟨hmag, h.1.mpr (Or.inl hmag), ?_⟩
  have hp := (h.2 hmag).1
  simpa using hp

/-- C9: whenever `deserialize()` returns failure, the engine state is
unchanged: both failure checks precede every read that deserializes
engine state. -/
theorem deserialize_failure_state_unchanged
    (applyBody : EngineState → InputBlob → EngineState × InputBlob)
    (s : EngineState) (blob : InputBlob)
    (h : (deserialize applyBody s blob).1 = false) :
    (deserialize applyBody s blob).2.1 = s := by
  simp only [deserialize] at h ⊢
  split_ifs at h ⊢ <;> simp_all

/-- Witness for C9 on a zero-filled stream. -/
theorem deserialize_failure_state_unchanged_witness :
    (deserialize idBody nullState badMagicBlob).1 = false
    ∧ (deserialize idBody nullState badMagicBlob).2.1 = nullState := by
  have hf : (deserialize idBody nullState badMagicBlob).1 = false := by
    decide
  exact ⟨hf,
    deserialize_failure_state_unchanged idBody nullState badMagicBlob hf⟩

/-- C8 counterexample: the packed header (4-byte magic, 4-byte version,
4-byte reserved slot) occupies 12 bytes, not 9. -/
theorem header_not_nine_bytes :
    (headerBytes SERIALIZED_ENGINE_MAGIC
      SerializedEngineVersion.LATEST 0).length = 12
    ∧ (12 : Nat) ≠ 9 := by decide

/-- C8 (amended): the header layout is a fixed 12 bytes — 4-byte magic,
4-byte version, 4-byte reserved checksum slot, in that order; the
writer populates the reserved slot with the constant `0` (no checksum);
and the reader's result never inspects it: the outcome of
`deserialize` is unchanged under any replacement of header bytes
8..11. -/
theorem header_layout_reserved_unread
    (mg r : Nat) (v : Int)
    (applyBody : EngineState → InputBlob → EngineState × InputBlob)
    (s sW : EngineState) (sub : SubPayloads) (blob : List Nat)
    (pre mid1 mid2 rest : List Nat)
    (h8 : pre.length = 8) (_h4 : mid1.length = 4)
    (_h4b : mid2.length = 4) :
    headerBytes mg v r = u32le mg ++ i32le v ++ u32le r
    ∧ (u32le mg).length = 4 ∧ (i32le v).length = 4
    ∧ (u32le r).length = 4
    ∧ (headerBytes mg v r).length = 12
    ∧ (serialize sW sub blob).1.take (blob.length + 12)
        = blob ++ headerBytes SERIALIZED_ENGINE_MAGIC
            SerializedEngineVersion.LATEST 0
    ∧ (deserialize applyBody s ⟨pre ++ mid1 ++ rest, 0⟩).1
        = (deserialize applyBody s ⟨pre ++ mid2 ++ rest, 0⟩).1 := by
  refine ⟨rfl, rfl, by simp [i32le, u32le], rfl,
    by simp [headerBytes, u32le, i32le], ?_, ?_⟩
  · show (List.take _ _) = _
    have hlen : (blob ++ headerBytes SERIALIZED_ENGINE_MAGIC
        SerializedEngineVersion.LATEST 0).length = blob.length + 12 := by
      simp [headerBytes, u32le, i32le]
    rw [show (serialize sW sub blob).1
        = (blob ++ headerBytes SERIALIZED_ENGINE_MAGIC
            SerializedEngineVersion.LATEST 0)
          ++ (sub.pathTable ++ (sub.universeBytes ++ (sub.hierarchyBytes
            ++ (sub.rendererBytes ++ (sub.pluginManagerBytes
            ++ (sW.m_scenes.map sub.sceneBytes).flatten)))) : List Nat)
        from by simp [serialize, List.append_assoc]]
    exact List.take_left' hlen
  · have hb : ∀ i : Nat, i < 8 →
        byteAt (pre ++ (mid1 ++ rest)) i = byteAt (pre ++ (mid2 ++ rest)) i := by
      intro i hi
      have hi1 : i < pre.length := by omega
      simp only [byteAt]
      rw [List.getD_append _ _ _ _ hi1, List.getD_append _ _ _ _ hi1]
    have hm : readU32le (pre ++ (mid1 ++ rest)) 0
        = readU32le (pre ++ (mid2 ++ rest)) 0 := by
      simp only [readU32le]
      rw [hb 0 (by omega), hb 1 (by omega), hb 2 (by omega),
        hb 3 (by omega)]
    have hv : readI32le (pre ++ (mid1 ++ rest)) 4
        = readI32le (pre ++ (mid2 ++ rest)) 4 := by
      simp only [readI32le, readU32le]
      rw [hb 4 (by omega), hb 5 (by omega), hb 6 (by omega),
        hb 7 (by omega)]
    simp only [deserialize]
    rw [List.append_assoc pre mid1 rest, List.append_assoc pre mid2 rest,
      hm, hv]
    split_ifs <;> rfl

/-- Witness for the amended C8: two streams differing only in the
reserved header bytes produce the same `deserialize` outcome. -/
theorem header_layout_reserved_unread_witness :
    ([0, 0, 0, 0, 0, 0, 0, 0] : List Nat).length = 8
    ∧ ([1, 2, 3, 4] : List Nat).length = 4
    ∧ ([5, 6, 7, 8] : List Nat).length = 4
    ∧ (deserialize idBody nullState
        ⟨[0, 0, 0, 0, 0, 0, 0, 0] ++ [1, 2, 3, 4] ++ [9], 0⟩).1
      = (deserialize idBody nullState
        ⟨[0, 0, 0, 0, 0, 0, 0, 0] ++ [5, 6, 7, 8] ++ [9], 0⟩).1 := by
  have h := header_layout_reserved_unread 0 0 0 idBody nullState
    nullState ⟨[], [], [], [], [], fun _ => []⟩ []
    [0, 0, 0, 0, 0, 0, 0, 0] [1, 2, 3, 4] [5, 6, 7, 8] [9] rfl rfl rfl
  exact ⟨rfl, rfl, rfl, h.2.2.2.2.2.2⟩

end Lumix
